import Mathlib

/-!
Shallow embedding of the Carlo experiment service
(`src/backend/services/experiment_service.py`) and of the durable record
bridge (`src/backend/core/database.py`).

Pure functions of the Python code are translated into Lean functions;
the mutable service object (`self.active_experiments`,
`self.experiment_status`) becomes an explicit `ServiceState` value that
every operation takes and returns; filesystem access is abstracted into
an explicit `FsModel` parameter; `datetime.utcnow()` becomes an explicit
`now : Nat` argument; Python floats appearing in parsed output are
modelled as exact rationals (the tokens the parser meets are plain
decimal numerals, which are exact; non-finite float syntax such as
`inf`/`nan` and underscore separators are not modelled).  Raising Python
exceptions is modelled with `Except`/`Option`.  Python strings are
handled through their character lists so that every operation is
structurally recursive and computable by the kernel.
-/

/-! ## Python string primitives used by the service -/

/-- Head-check used below: does `pat` occur at the head of the second
list? -/
def leadsWith : List Char → List Char → Bool
  | [], _ => true
  | _ :: _, [] => false
  | a :: as, b :: bs => a == b && leadsWith as bs

/-- Substring occurrence on character lists (Python's `pat in s`). -/
def hasSubList (pat : List Char) : List Char → Bool
  | [] => pat.isEmpty
  | c :: rest => leadsWith pat (c :: rest) || hasSubList pat rest

/-- Python's `pat in s` on strings. -/
def hasSubstr (s pat : String) : Bool :=
  hasSubList pat.toList s.toList

/-- Fuel-driven worker for `pyStrSplit`; the fuel only serves to make
the recursion structural and is chosen large enough never to run out. -/
def splitOnFuel (sep : List Char) : Nat → List Char → List Char → List (List Char)
  | 0, s, acc => [acc.reverse ++ s]
  | fuel + 1, s, acc =>
    match s with
    | [] => [acc.reverse]
    | c :: rest =>
      if leadsWith sep (c :: rest) then
        acc.reverse :: splitOnFuel sep fuel (List.drop (sep.length - 1) rest) []
      else splitOnFuel sep fuel rest (c :: acc)

/-- Python's `s.split(sep)` for a non-empty separator: the pieces of `s`
between non-overlapping occurrences of `sep`, scanned left to right. -/
def pyStrSplit (sep s : List Char) : List (List Char) :=
  splitOnFuel sep (s.length + 1) s []

/-- Python's `str.split()` with no separator: split on runs of
whitespace, dropping empty pieces. -/
def pySplitWsC : List Char → List Char → List (List Char)
  | [], acc => if acc.isEmpty then [] else [acc.reverse]
  | c :: rest, acc =>
    if c.isWhitespace then
      if acc.isEmpty then pySplitWsC rest [] else acc.reverse :: pySplitWsC rest []
    else pySplitWsC rest (c :: acc)

/-- Python's `str.strip()`: drop whitespace from both ends. -/
def trimC (cs : List Char) : List Char :=
  ((cs.dropWhile Char.isWhitespace).reverse.dropWhile Char.isWhitespace).reverse

/-- Python's `str.lower()` on ASCII text. -/
def toLowerC (cs : List Char) : List Char :=
  cs.map Char.toLower

/-- Numeric value of a list of decimal digit characters. -/
def natOfDigits (cs : List Char) : Nat :=
  cs.foldl (fun n c => 10 * n + (c.toNat - 48)) 0

/-- Strip one optional leading sign, reporting whether it was `-`. -/
def splitSign : List Char → Bool × List Char
  | '-' :: rest => (true, rest)
  | '+' :: rest => (false, rest)
  | cs => (false, cs)

/-- Mantissa of an unsigned decimal numeral `DDD`, `DDD.DDD`, `DDD.` or
`.DDD`: the digits with the point removed (value `m`) together with the
count `k` of fractional digits, so the numeral's value is `m / 10 ^ k`;
`none` when the characters are not of that shape. -/
def parseDecMantissa (cs : List Char) : Option (Nat × Nat) :=
  let ip := cs.takeWhile Char.isDigit
  let rest := cs.dropWhile Char.isDigit
  match rest with
  | [] => if ip.isEmpty then none else some (natOfDigits ip, 0)
  | '.' :: rest2 =>
    let fp := rest2.takeWhile Char.isDigit
    let rest3 := rest2.dropWhile Char.isDigit
    if !rest3.isEmpty then none
    else if ip.isEmpty && fp.isEmpty then none
    else some (natOfDigits (ip ++ fp), fp.length)
  | _ => none

/-- Python's `float(tok)` on the tokens the progress parser meets:
optional sign, decimal mantissa, optional decimal exponent, assembled as
an exact rational through `Rat.divInt`.  `none` models `float` raising
`ValueError`. -/
def pyFloatC? (cs : List Char) : Option ℚ :=
  let (neg, body) := splitSign cs
  let signedNum : Nat → Int := fun m => if neg then -(m : Int) else (m : Int)
  match body.findIdx? (fun c => c == 'e' || c == 'E') with
  | none =>
    (parseDecMantissa body).map (fun mk => Rat.divInt (signedNum mk.1) ((10 : Int) ^ mk.2))
  | some i =>
    let mant := body.take i
    let expPart := body.drop (i + 1)
    let (eneg, edigits) := splitSign expPart
    if edigits.isEmpty || !edigits.all Char.isDigit then none
    else
      (parseDecMantissa mant).map (fun mk =>
        let e := natOfDigits edigits
        if eneg then Rat.divInt (signedNum mk.1) ((10 : Int) ^ (mk.2 + e))
        else Rat.divInt (signedNum mk.1 * (10 : Int) ^ e) ((10 : Int) ^ mk.2))

/-- Python's `int(tok)`: optional sign and decimal digits.  `none`
models `int` raising `ValueError`. -/
def pyIntC? (cs : List Char) : Option Int :=
  let (neg, ds) := splitSign cs
  if ds.isEmpty || !ds.all Char.isDigit then none
  else some (if neg then -(natOfDigits ds : Int) else (natOfDigits ds : Int))

/-! ## Progress dictionary and the progress parser

`experiment_status[id]["progress"]` is a Python dict whose keys may be
absent; a field value `none` models an absent key, `some v` a present
key.  `best_reward`, `elapsed_time` and `estimated_remaining` can also
be present with value `None`, hence the doubled `Option`. -/

structure Progress where
  current_iteration : Option Int
  total_iterations : Option Int
  best_reward : Option (Option ℚ)
  collision_found : Option Bool
  elapsed_time : Option (Option ℚ)
  estimated_remaining : Option (Option ℚ)
  recent_rewards : Option (List ℚ)
  deriving DecidableEq

/-- The empty progress dict `{}`. -/
def emptyProgress : Progress :=
  { current_iteration := none, total_iterations := none, best_reward := none,
    collision_found := none, elapsed_time := none, estimated_remaining := none,
    recent_rewards := none }

/-- The three local variables of `_parse_progress_info` after the
pattern section (lines 666-683): initialized to `None`/`False`/`0` and
at most one of them set by the `if`/`elif` chain. -/
structure ParsedDelta where
  best_reward : Option ℚ
  collision_found : Bool
  current_iteration : Int
  deriving DecidableEq

/-- Scan of lines 675-681: walk the whitespace tokens; at a token equal
to `"Iteration"` that has a successor token containing `"/"`, convert
the part of that successor before the first `"/"` with `int` and stop.
`none` models `int` raising `ValueError` (the surrounding `try` then
drops the whole update). -/
def iterationScan : List (List Char) → Option Int
  | [] => some 0
  | [_] => some 0
  | part :: next :: rest2 =>
    if part = "Iteration".toList then
      if hasSubList ['/'] next then
        match pyIntC? ((pyStrSplit ['/'] next).headD []) with
        | some n => some n
        | none => none
      else iterationScan (next :: rest2)
    else iterationScan (next :: rest2)

/-- Last step of the reward branch (line 672): `float` on the first
token; a `ValueError` (modelled `none`) aborts the whole parse. -/
def rewardFromTok (tok : List Char) : Option ParsedDelta :=
  match pyFloatC? tok with
  | none => none
  | some r => some { best_reward := some r, collision_found := false, current_iteration := 0 }

/-- Middle step of the reward branch (line 672):
`reward_part.split()[0]`; an empty token list is the `IndexError`
(modelled `none`). -/
def rewardFromTail (tail : List Char) : Option ParsedDelta :=
  match pySplitWsC (trimC tail) [] with
  | [] => none
  | tok :: _ => rewardFromTok tok

/-- First step of the reward branch (lines 671-672):
`line_str.split("Best reward:")[1].strip()`. -/
def rewardFromLine (cs : List Char) : Option ParsedDelta :=
  match (pyStrSplit ("Best reward:".toList) cs).get? 1 with
  | none => none
  | some tail => rewardFromTail tail

/-- Pattern section of `_parse_progress_info` (lines 666-683).  `none`
models an exception (`ValueError`/`IndexError`) escaping the pattern
code and being caught at line 700, in which case no merge happens. -/
def parseProgressDelta (line_str : String) : Option ParsedDelta :=
  if hasSubList ("Best reward:".toList) line_str.toList then
    rewardFromLine line_str.toList
  else if hasSubList ("Iteration".toList) line_str.toList
      && hasSubList ['/'] line_str.toList then
    (iterationScan (pySplitWsC line_str.toList [])).map
      (fun n => { best_reward := none, collision_found := false, current_iteration := n })
  else if hasSubList ("collision found".toList) (toLowerC line_str.toList)
      || hasSubList ("COLLISION FOUND".toList) line_str.toList then
    some { best_reward := none, collision_found := true, current_iteration := 0 }
  else
    some { best_reward := none, collision_found := false, current_iteration := 0 }

/-- Merge section of `_parse_progress_info` (lines 686-698): create the
progress dict if missing or `None`, then set `best_reward` when a reward
was parsed, latch `collision_found` when the marker was seen, and set
`current_iteration` when a positive iteration was parsed. -/
def applyProgressDelta (d : ParsedDelta) (p : Option Progress) : Progress :=
  let base := p.getD emptyProgress
  let base := match d.best_reward with
    | some r => { base with best_reward := some (some r) }
    | none => base
  let base := if d.collision_found then { base with collision_found := some true } else base
  if d.current_iteration > 0 then { base with current_iteration := some d.current_iteration } else base

/-- One call of `_parse_progress_info` viewed at the level of a single
job's progress dict: parse the line and merge, or leave the progress
untouched when the pattern code raised. -/
def parseAndMergeLine (line_str : String) (p : Option Progress) : Option Progress :=
  match parseProgressDelta line_str with
  | none => p
  | some d => some (applyProgressDelta d p)

/-! ## Service state -/

/-- Python exceptions surfaced by the modelled operations. -/
inductive PyErr
  | valueError (msg : String)
  | keyError (key : String)
  deriving DecidableEq

/-- The `ExperimentStatusEnum` values. -/
inductive ExpStatus
  | created
  | running
  | completed
  | failed
  | stopped
  deriving DecidableEq

/-- The `status in [COMPLETED, FAILED, STOPPED]` test of line 726. -/
def ExpStatus.isTerminal : ExpStatus → Bool
  | .completed | .failed | .stopped => true
  | _ => false

/-- The `config` sub-dictionary of an experiment status dict. -/
structure ConfigDict where
  route_id : String
  route_file : String
  search_method : String
  num_iterations : Int
  timeout_seconds : Int
  headless : Bool
  random_seed : Int
  reward_function : String
  deriving DecidableEq

/-- One value of `self.experiment_status`: the per-job status dict.
Python stores `status` as the enum's string value; the mapping between
the enum and its string is bijective, so the enum is stored directly.
Timestamps are abstract instants (`datetime.utcnow()` readings). -/
structure StatusDict where
  status : ExpStatus
  config : ConfigDict
  progress : Option Progress
  created_at : Option Nat
  started_at : Option Nat
  completed_at : Option Nat
  error_message : Option String
  output_directory : Option String
  deriving DecidableEq

/-- First-match association-list lookup (Python dict access keyed by the
experiment id). -/
def lookupAssoc : List (String × StatusDict) → String → Option StatusDict
  | [], _ => none
  | (k, v) :: rest, id => if k = id then some v else lookupAssoc rest id

/-- Association-list update (Python dict item assignment). -/
def setAssoc : List (String × StatusDict) → String → StatusDict → List (String × StatusDict)
  | [], id, v => [(id, v)]
  | (k, w) :: rest, id, v =>
    if k = id then (k, v) :: rest else (k, w) :: setAssoc rest id v

/-- The mutable state of `ExperimentService`: the ids holding an active
`asyncio.Task` and the in-memory status dicts. -/
structure ServiceState where
  active_experiments : List String
  experiment_status : List (String × StatusDict)
  deriving DecidableEq

/-- Read of `self.experiment_status[id]`. -/
def lookupExp (s : ServiceState) (id : String) : Option StatusDict :=
  lookupAssoc s.experiment_status id

/-- Write of `self.experiment_status[id] = d`. -/
def setExp (s : ServiceState) (id : String) (d : StatusDict) : ServiceState :=
  { s with experiment_status := setAssoc s.experiment_status id d }

/-- The keyword arguments `_update_experiment_status` receives from
`start_experiment`, `stop_experiment` and the failure path of
`_run_experiment_task` (the completed path additionally passes
`final_reward`/`collision_found`, a path not needed by the claims
settled here). -/
inductive UpdateKw
  | noKw
  | errMsg (msg : String)
  deriving DecidableEq

/-- Lines 720-727 and 730-732 of `_update_experiment_status` applied to
one status dict: set the status, restamp `started_at` on `running` and
`completed_at` on a terminal status, then apply the keyword fields. -/
def updateStatusFields (now : Nat) (status : ExpStatus) (kw : UpdateKw) (d : StatusDict) : StatusDict :=
  let d := { d with status := status }
  let d :=
    if status = ExpStatus.running then { d with started_at := some now }
    else if status.isTerminal then { d with completed_at := some now }
    else d
  match kw with
  | .noKw => d
  | .errMsg m => { d with error_message := some m }

/-- The in-memory effect of `_update_experiment_status` (lines 703-756):
a missing id is a silent no-op; the trailing database write is
best-effort (wrapped in `try`/`except`) and modelled separately by
`update_experiment_status` below. -/
def _update_experiment_status (now : Nat) (s : ServiceState) (id : String)
    (status : ExpStatus) (kw : UpdateKw) : ServiceState :=
  match lookupExp s id with
  | none => s
  | some d => setExp s id (updateStatusFields now status kw d)

/-- The `start_experiment` operation (lines 159-179): `ValueError` when
the id is unknown, `ValueError` when an active task exists, otherwise
transition to `running` and record the spawned task in
`active_experiments`. -/
def start_experiment (now : Nat) (s : ServiceState) (id : String) : Except PyErr ServiceState :=
  if (lookupExp s id).isNone then
    Except.error (PyErr.valueError ("Experiment " ++ id ++ " not found"))
  else if s.active_experiments.contains id then
    Except.error (PyErr.valueError ("Experiment " ++ id ++ " is already running"))
  else
    let s := _update_experiment_status now s id ExpStatus.running UpdateKw.noKw
    Except.ok { s with active_experiments := s.active_experiments ++ [id] }

/-- The `stop_experiment` operation (lines 181-206).  `task.cancel()`
followed by `await task` lets the supervised coroutine unwind; when that
coroutine had begun executing (`taskHadRun`), its `finally` block
(lines 637-640) removes the id from `active_experiments` before the
`await` returns, so the unguarded `del self.active_experiments[id]` of
line 201 raises `KeyError`; only a task cancelled before it ever ran
leaves the entry for line 201 to delete. -/
def stop_experiment (now : Nat) (taskHadRun : Bool) (s : ServiceState) (id : String) :
    Except PyErr ServiceState :=
  if !s.active_experiments.contains id then
    Except.error (PyErr.valueError ("Experiment " ++ id ++ " is not running"))
  else
    let s1 := if taskHadRun then { s with active_experiments := s.active_experiments.erase id } else s
    if s1.active_experiments.contains id then
      let s2 := { s1 with active_experiments := s1.active_experiments.erase id }
      Except.ok (_update_experiment_status now s2 id ExpStatus.stopped UpdateKw.noKw)
    else
      Except.error (PyErr.keyError id)

/-! ## The supervision loop's progress update

`_run_experiment_task` initializes `best_reward = None`,
`collision_found = False`, `current_iteration = 0` at lines 521-523.
None of the three is assigned again anywhere in the monitoring loop of
lines 540-582 (the stream parser writes to `self.experiment_status`
instead, and the reassignments at lines 599-600 come only after the loop
has exited), so every pass of the loop body's update at lines 566-582
writes these initial values. -/

/-- Local `best_reward` of `_run_experiment_task` as the monitoring loop
reads it (line 521, never reassigned inside the loop). -/
def taskLocalBestReward : Option ℚ := none

/-- Local `collision_found` of `_run_experiment_task` as the monitoring
loop reads it (line 522, never reassigned inside the loop). -/
def taskLocalCollisionFound : Bool := false

/-- Local `current_iteration` of `_run_experiment_task` as the
monitoring loop reads it (line 523, never reassigned inside the loop). -/
def taskLocalCurrentIteration : Int := 0

/-- Lines 566-582: create the progress dict if missing or `None`, then
`dict.update` it with the task's local monitoring values. -/
def monitorProgressUpdate (current_iteration : Int) (total_iterations : Int)
    (best_reward : Option ℚ) (collision_found : Bool) (elapsed_time : ℚ)
    (p : Option Progress) : Progress :=
  let base := p.getD emptyProgress
  { base with
    current_iteration := some current_iteration,
    total_iterations := some total_iterations,
    best_reward := some best_reward,
    collision_found := some collision_found,
    elapsed_time := some (some elapsed_time),
    estimated_remaining := some none,
    recent_rewards := some [] }

/-- One pass of the supervision loop's progress update applied to the
service state: look the job up, take `num_iterations` from its config,
and overwrite the progress dict with the task's local values. -/
def monitorTick (s : ServiceState) (id : String) (elapsed : ℚ) : ServiceState :=
  match lookupExp s id with
  | none => s
  | some d =>
    setExp s id
      { d with progress := some (monitorProgressUpdate taskLocalCurrentIteration
          d.config.num_iterations taskLocalBestReward taskLocalCollisionFound elapsed d.progress) }

/-- One call of `_parse_progress_info` (lines 663-701) on the service
state: parse the line; when the pattern code raised, nothing is merged;
otherwise merge into the job's progress dict if the job is known. -/
def _parse_progress_info (s : ServiceState) (id : String) (line_str : String) : ServiceState :=
  match parseProgressDelta line_str with
  | none => s
  | some delta =>
    match lookupExp s id with
    | none => s
    | some d => setExp s id { d with progress := some (applyProgressDelta delta d.progress) }

/-! ## Paths and the filesystem model

POSIX absolute paths are modelled as their component lists (the leading
`/` is implicit).  Symlinks are not modelled, so `Path.resolve()` is
pure `..` elimination and a path exists exactly when its resolved form
does. -/

/-- An absolute path as its list of components. -/
abbrev PathC := List String

/-- Components of a path string as `pathlib` keeps them: split on `/`,
dropping empty components and `.` (a `..` component is kept). -/
def pyPathParts (s : String) : List String :=
  (pyStrSplit ['/'] s.toList).foldr
    (fun piece acc =>
      let comp := String.mk piece
      if comp = "" || comp = "." then acc else comp :: acc) []

/-- Python's `base / filename`: an absolute `filename` replaces `base`. -/
def pathJoin (base : PathC) (filename : String) : PathC :=
  if leadsWith ['/'] filename.toList then pyPathParts filename
  else base ++ pyPathParts filename

/-- `Path.resolve()` without symlinks: eliminate each `..` against the
prefix built so far (a `..` at the root stays at the root). -/
def resolvePath (p : PathC) : PathC :=
  p.foldl (fun acc c => if c = ".." then acc.dropLast else acc ++ [c]) []

/-- Success of `child.relative_to(base)`: `base` is a component-wise
ancestor of (or equal to) `child`. -/
def isAncestor : PathC → PathC → Bool
  | [], _ => true
  | _ :: _, [] => false
  | a :: as, b :: bs => a == b && isAncestor as bs

/-- Contents of the parsed `best_solution.json` artifact, one `Option`
field per key the service reads with `.get`; the artifact missing
altogether is the all-`none` value `emptyBestSolution`. -/
structure BestSolutionData where
  total_iterations : Option Int
  best_reward : Option ℚ
  best_parameters : Option (List (String × ℚ))
  collision_found : Option Bool
  total_duration : Option ℚ
  average_iteration_time : Option ℚ
  min_reward : Option ℚ
  max_reward : Option ℚ
  mean_reward : Option ℚ
  std_reward : Option ℚ
  deriving DecidableEq

/-- The empty dict used when `best_solution.json` does not exist. -/
def emptyBestSolution : BestSolutionData :=
  { total_iterations := none, best_reward := none, best_parameters := none,
    collision_found := none, total_duration := none, average_iteration_time := none,
    min_reward := none, max_reward := none, mean_reward := none, std_reward := none }

/-- Abstract filesystem the service reads: entry existence
(`Path.exists()`), the regular files of a directory (`iterdir()`
filtered by `is_file()`), and the parsed content of a present
`best_solution.json` (a present but unparseable artifact would raise
out of `json.load`, a path not modelled). -/
structure FsModel where
  pathPresent : PathC → Bool
  dirFiles : PathC → List String
  bestSolution : PathC → BestSolutionData

/-- `Path.exists()` in the model: presence of the resolved path. -/
def pathExistsIn (fs : FsModel) (p : PathC) : Bool :=
  fs.pathPresent (resolvePath p)

/-- Body of `get_experiment_file_path` for a found job (lines 429-438):
join the filename onto the output directory; a resolved path outside the
resolved output directory makes `relative_to` raise `ValueError`, caught
as `None`; otherwise the unresolved joined path is returned when it
exists. -/
def filePathWithin (fs : FsModel) (d : StatusDict) (filename : String) : Option PathC :=
  if isAncestor (resolvePath (pyPathParts (d.output_directory.getD "")))
      (resolvePath (pathJoin (pyPathParts (d.output_directory.getD "")) filename)) then
    if pathExistsIn fs (pathJoin (pyPathParts (d.output_directory.getD "")) filename) then
      some (pathJoin (pyPathParts (d.output_directory.getD "")) filename)
    else none
  else none

/-- The `get_experiment_file_path` operation (lines 410-438): unknown id
gives `None`, otherwise resolve within the job's output directory. -/
def get_experiment_file_path (fs : FsModel) (s : ServiceState) (id : String)
    (filename : String) : Option PathC :=
  match lookupExp s id with
  | none => none
  | some d => filePathWithin fs d filename

/-- Insertion step of `pySort`. -/
def insertStr (x : String) : List String → List String
  | [] => [x]
  | y :: ys => if x ≤ y then x :: y :: ys else y :: insertStr x ys

/-- Python's `sorted` on file names.  Ties in the order `≤` are equal
strings, so insertion sort returns the same list as Python's stable
mergesort. -/
def pySort : List String → List String
  | [] => []
  | x :: xs => insertStr x (pySort xs)

/-- The `_list_result_files` helper (lines 758-776): empty when the
output directory does not exist, otherwise the sorted names of its
regular files. -/
def _list_result_files (fs : FsModel) (output_dir : PathC) : List String :=
  if pathExistsIn fs output_dir then pySort (fs.dirFiles output_dir) else []

/-- The `ExperimentResult` payload (lines 333-349). -/
structure ExperimentResult where
  experiment_id : String
  final_status : ExpStatus
  total_iterations : Int
  best_reward : Option ℚ
  best_parameters : Option (List (String × ℚ))
  collision_found : Bool
  collision_details : Option Unit
  total_duration : Option ℚ
  average_iteration_time : Option ℚ
  min_reward : Option ℚ
  max_reward : Option ℚ
  mean_reward : Option ℚ
  std_reward : Option ℚ
  result_files : List String
  output_directory : String
  deriving DecidableEq

/-- Body of `get_experiment_results` for a found job (lines 321-349):
read `best_solution.json` when present (empty dict when absent) and
assemble the result with `.get` defaults. -/
def resultsForDict (fs : FsModel) (id : String) (d : StatusDict) : ExperimentResult :=
  let output_dir := pyPathParts (d.output_directory.getD "")
  let best_solution_file := output_dir ++ ["best_solution.json"]
  let data :=
    if pathExistsIn fs best_solution_file then fs.bestSolution best_solution_file
    else emptyBestSolution
  { experiment_id := id,
    final_status := d.status,
    total_iterations := data.total_iterations.getD 0,
    best_reward := data.best_reward,
    best_parameters := data.best_parameters,
    collision_found := data.collision_found.getD false,
    collision_details := none,
    total_duration := data.total_duration,
    average_iteration_time := data.average_iteration_time,
    min_reward := data.min_reward,
    max_reward := data.max_reward,
    mean_reward := data.mean_reward,
    std_reward := data.std_reward,
    result_files := _list_result_files fs output_dir,
    output_directory := d.output_directory.getD "" }

/-- The `get_experiment_results` operation (lines 307-351): `None` for
an unknown id, otherwise the assembled result. -/
def get_experiment_results (fs : FsModel) (s : ServiceState) (id : String) :
    Option ExperimentResult :=
  match lookupExp s id with
  | none => none
  | some d => some (resultsForDict fs id d)

/-! ## Durable record bridge (`src/backend/core/database.py`) -/

/-- The columns of `ExperimentRecord` touched by
`update_experiment_status`.  The status column holds the raw string. -/
structure DbRecord where
  id : String
  status : String
  started_at : Option Nat
  completed_at : Option Nat
  best_reward : Option ℚ
  total_iterations : Int
  collision_found : Bool
  error_message : Option String
  deriving DecidableEq

/-- Keyword arguments the service passes to the database update; each is
applied through `setattr` when provided (all three name existing
columns). -/
structure DbKw where
  best_reward : Option ℚ
  collision_found : Option Bool
  error_message : Option String
  deriving DecidableEq

/-- The `setattr` loop of lines 125-127. -/
def dbApplyKwargs (kw : DbKw) (r : DbRecord) : DbRecord :=
  let r := match kw.best_reward with
    | some v => { r with best_reward := some v }
    | none => r
  let r := match kw.collision_found with
    | some v => { r with collision_found := v }
    | none => r
  match kw.error_message with
  | some v => { r with error_message := some v }
  | none => r

/-- The record transform of `update_experiment_status`
(`database.py` lines 118-127): set the status column; stamp
`started_at` only when entering `running` with `started_at` unset,
else stamp `completed_at` only when entering a terminal status with
`completed_at` unset; then apply the keyword columns. -/
def update_experiment_status (now : Nat) (status : String) (kw : DbKw) (r : DbRecord) : DbRecord :=
  let r := { r with status := status }
  let r :=
    if status = "running" ∧ r.started_at = none then { r with started_at := some now }
    else if (status = "completed" ∨ status = "failed" ∨ status = "stopped")
        ∧ r.completed_at = none then { r with completed_at := some now }
    else r
  dbApplyKwargs kw r

/-! ## Concrete states used to evaluate the operations -/

/-- A sample immutable config snapshot. -/
def cfgEx : ConfigDict :=
  { route_id := "1", route_file := "routes_town04.xml", search_method := "random",
    num_iterations := 20, timeout_seconds := 300, headless := true,
    random_seed := 42, reward_function := "ttc" }

/-- A job that finished: status `completed`, timestamps stamped. -/
def dTerm : StatusDict :=
  { status := ExpStatus.completed, config := cfgEx, progress := none,
    created_at := some 1, started_at := some 2, completed_at := some 5,
    error_message := none, output_directory := some "/out/e1" }

/-- Registry holding only the completed job `e1`, with no active task. -/
def stTerm : ServiceState :=
  { active_experiments := [], experiment_status := [("e1", dTerm)] }

/-- A job that was stopped: `started_at` stamped at 3. -/
def dStopped : StatusDict :=
  { status := ExpStatus.stopped, config := cfgEx, progress := none,
    created_at := some 1, started_at := some 3, completed_at := some 5,
    error_message := none, output_directory := some "/out/e4" }

/-- Registry holding only the stopped job `e4`, with no active task. -/
def stStopped : ServiceState :=
  { active_experiments := [], experiment_status := [("e4", dStopped)] }

/-- A running job owning an active task. -/
def dRunning : StatusDict :=
  { status := ExpStatus.running, config := cfgEx, progress := none,
    created_at := some 1, started_at := some 3, completed_at := none,
    error_message := none, output_directory := some "/out/e5" }

/-- Registry holding the running job `e5` whose task is active. -/
def stRunning : ServiceState :=
  { active_experiments := ["e5"], experiment_status := [("e5", dRunning)] }

/-- The empty registry. -/
def stEmptySvc : ServiceState :=
  { active_experiments := [], experiment_status := [] }

/-- A job whose output directory is `/out/e6`. -/
def dOut6 : StatusDict :=
  { status := ExpStatus.completed, config := cfgEx, progress := none,
    created_at := some 1, started_at := some 2, completed_at := some 5,
    error_message := none, output_directory := some "/out/e6" }

/-- Registry holding the job `e6`. -/
def stFile : ServiceState :=
  { active_experiments := [], experiment_status := [("e6", dOut6)] }

/-- Filesystem for the traversal claim: the escaped location
`/out/secret` exists, the output directory `/out/e6` exists and holds
`log.txt`. -/
def fsFile : FsModel :=
  { pathPresent := fun p =>
      p == ["out", "secret"] || p == ["out", "e6"] || p == ["out", "e6", "log.txt"],
    dirFiles := fun _ => [],
    bestSolution := fun _ => emptyBestSolution }

/-- A job whose output directory is `/out/e9`. -/
def dOut9 : StatusDict :=
  { status := ExpStatus.completed, config := cfgEx, progress := none,
    created_at := some 1, started_at := some 2, completed_at := some 5,
    error_message := none, output_directory := some "/out/e9" }

/-- Registry holding the job `e9`. -/
def stRes : ServiceState :=
  { active_experiments := [], experiment_status := [("e9", dOut9)] }

/-- Filesystem for the results claim: the output directory exists and
holds the generated config file but no `best_solution.json`. -/
def fsRes : FsModel :=
  { pathPresent := fun p => p == ["out", "e9"],
    dirFiles := fun p => if p == ["out", "e9"] then ["experiment_config.json"] else [],
    bestSolution := fun _ => emptyBestSolution }

/-- Filesystem whose output directory exists but is empty. -/
def fsResEmpty : FsModel :=
  { pathPresent := fun p => p == ["out", "e9"],
    dirFiles := fun _ => [],
    bestSolution := fun _ => emptyBestSolution }

/-- A sample pre-existing progress dict. -/
def progSample : Progress :=
  { current_iteration := some 4, total_iterations := some 20,
    best_reward := some (some 1), collision_found := some false,
    elapsed_time := some (some 12), estimated_remaining := some none,
    recent_rewards := some [] }

/-! ## Helper lemmas -/

theorem lookupAssoc_setAssoc (l : List (String × StatusDict)) (id : String) (v : StatusDict) :
    lookupAssoc (setAssoc l id v) id = some v := by
  induction l with
  | nil => simp [setAssoc, lookupAssoc]
  | cons kv rest ih =>
    obtain ⟨k, w⟩ := kv
    by_cases hk : k = id
    · simp [setAssoc, lookupAssoc, hk]
    · simp [setAssoc, lookupAssoc, hk, ih]

theorem lookupExp_setExp (s : ServiceState) (id : String) (v : StatusDict) :
    lookupExp (setExp s id v) id = some v :=
  lookupAssoc_setAssoc s.experiment_status id v

theorem updateStatusFields_status (now : Nat) (st : ExpStatus) (kw : UpdateKw) (d : StatusDict) :
    (updateStatusFields now st kw d).status = st := by
  cases kw <;> simp only [updateStatusFields] <;> split_ifs <;> rfl

theorem parseAndMerge_of_delta (line_str : String) (p : Option Progress) (d : ParsedDelta)
    (h : parseProgressDelta line_str = some d) :
    parseAndMergeLine line_str p = some (applyProgressDelta d p) := by
  simp [parseAndMergeLine, h]

theorem parseAndMerge_of_err (line_str : String) (p : Option Progress)
    (h : parseProgressDelta line_str = none) :
    parseAndMergeLine line_str p = p := by
  simp [parseAndMergeLine, h]

theorem rewardFromLine_at_none (cs : List Char)
    (hx : (pyStrSplit ("Best reward:".toList) cs).get? 1 = none) :
    rewardFromLine cs = none := by
  unfold rewardFromLine
  rw [hx]

theorem rewardFromLine_at_some (cs tail : List Char)
    (hx : (pyStrSplit ("Best reward:".toList) cs).get? 1 = some tail) :
    rewardFromLine cs = rewardFromTail tail := by
  unfold rewardFromLine
  rw [hx]

theorem rewardFromTail_at_nil (tail : List Char)
    (hy : pySplitWsC (trimC tail) [] = []) :
    rewardFromTail tail = none := by
  unfold rewardFromTail
  rw [hy]

theorem rewardFromTail_at_cons (tail tok : List Char) (rest : List (List Char))
    (hy : pySplitWsC (trimC tail) [] = tok :: rest) :
    rewardFromTail tail = rewardFromTok tok := by
  unfold rewardFromTail
  rw [hy]

theorem rewardFromTok_shape (tok : List Char) :
    rewardFromTok tok = none ∨
    ∃ r, rewardFromTok tok
      = some { best_reward := some r, collision_found := false, current_iteration := 0 } := by
  unfold rewardFromTok
  cases pyFloatC? tok with
  | none => exact Or.inl rfl
  | some r => exact Or.inr ⟨r, rfl⟩

theorem parseDelta_on_reward_line (line_str : String)
    (h : hasSubstr line_str "Best reward:" = true) :
    parseProgressDelta line_str = rewardFromLine line_str.toList := by
  have h' : hasSubList ("Best reward:".toList) line_str.toList = true := h
  unfold parseProgressDelta
  rw [if_pos h']

theorem reward_line_delta_shape (line_str : String)
    (h : hasSubstr line_str "Best reward:" = true) :
    parseProgressDelta line_str = none ∨
    ∃ r, parseProgressDelta line_str
      = some { best_reward := some r, collision_found := false, current_iteration := 0 } := by
  rw [parseDelta_on_reward_line line_str h]
  cases hx : (pyStrSplit ("Best reward:".toList) line_str.toList).get? 1 with
  | none => exact Or.inl (rewardFromLine_at_none _ hx)
  | some tail =>
    rw [rewardFromLine_at_some _ _ hx]
    cases hy : pySplitWsC (trimC tail) [] with
    | nil => exact Or.inl (rewardFromTail_at_nil _ hy)
    | cons tok rest =>
      rw [rewardFromTail_at_cons _ _ _ hy]
      exact rewardFromTok_shape tok

theorem applyDelta_reward_shape (r : ℚ) (p : Option Progress) :
    applyProgressDelta { best_reward := some r, collision_found := false, current_iteration := 0 } p
      = { p.getD emptyProgress with best_reward := some (some r) } := by
  simp [applyProgressDelta]

/-! ## Claims about the progress parser and the supervision loop -/

/-- C1: the claimed monotonicity of progress fails on the code.  The
parser records iteration 7 (and reward 3.5 = 7/2) from a child line, and
one supervision-loop progress update then rewrites `current_iteration`
back to 0 and `best_reward` back to `None`, because the loop writes the
task-local monitoring variables of lines 521-523, which the stream
parser never updates. -/
theorem monitor_tick_regresses_progress :
    (parseAndMergeLine "Iteration 7/20" none).map (fun q => q.current_iteration) = some (some 7)
  ∧ (monitorProgressUpdate taskLocalCurrentIteration 20 taskLocalBestReward
      taskLocalCollisionFound 30 (parseAndMergeLine "Iteration 7/20" none)).current_iteration
      = some 0
  ∧ (parseAndMergeLine "Best reward: 3.5 (delta 0.12)" none).map (fun q => q.best_reward)
      = some (some (some (Rat.divInt 7 2)))
  ∧ (monitorProgressUpdate taskLocalCurrentIteration 20 taskLocalBestReward
      taskLocalCollisionFound 30 (parseAndMergeLine "Best reward: 3.5 (delta 0.12)" none)).best_reward
      = some none := by
  refine ⟨by decide, by decide, by decide, by decide⟩

/-- C2: the collision latch fails on the code.  The parser latches
`collision_found = True` from a collision line, and one supervision-loop
progress update then resets it to `False`, because the loop writes the
task-local `collision_found` of line 522, which the stream parser never
updates. -/
theorem monitor_tick_resets_collision_latch :
    (parseAndMergeLine "COLLISION FOUND at iteration 5" none).map (fun q => q.collision_found)
      = some (some true)
  ∧ (monitorProgressUpdate taskLocalCurrentIteration 20 taskLocalBestReward
      taskLocalCollisionFound 45 (parseAndMergeLine "COLLISION FOUND at iteration 5" none)).collision_found
      = some false := by
  refine ⟨by decide, by decide⟩

/-- C7: a line containing the `Best reward:` marker whose following
token parses as the number `r` makes the merge set the job's
`best_reward` to `r`, whatever progress the job had before.  The
hypotheses are the code's own extraction steps: the text after the
marker, its first whitespace token, and `float` succeeding on it. -/
theorem reward_line_sets_best_reward (p : Option Progress) (line_str : String)
    (tail tok : List Char) (rest : List (List Char)) (r : ℚ)
    (h1 : hasSubstr line_str "Best reward:" = true)
    (h2 : (pyStrSplit ("Best reward:".toList) line_str.toList).get? 1 = some tail)
    (h3 : pySplitWsC (trimC tail) [] = tok :: rest)
    (h4 : pyFloatC? tok = some r) :
    (parseAndMergeLine line_str p).map (fun q => q.best_reward) = some (some (some r)) := by
  have hdelta : parseProgressDelta line_str
      = some { best_reward := some r, collision_found := false, current_iteration := 0 } := by
    rw [parseDelta_on_reward_line line_str h1, rewardFromLine_at_some _ _ h2,
      rewardFromTail_at_cons _ _ _ h3]
    unfold rewardFromTok
    rw [h4]
  rw [parseAndMerge_of_delta _ _ _ hdelta, applyDelta_reward_shape]
  simp

/-- C7 witness: on the line `"Best reward: 3.5 (delta 0.12)"` the merge
stores best reward 7/2 = 3.5. -/
theorem reward_line_sets_best_reward_witness :
    (parseAndMergeLine "Best reward: 3.5 (delta 0.12)" none).map (fun q => q.best_reward)
      = some (some (some (Rat.divInt 7 2))) :=
  reward_line_sets_best_reward none "Best reward: 3.5 (delta 0.12)"
    (" 3.5 (delta 0.12)".toList) ("3.5".toList) ["(delta".toList, "0.12)".toList]
    (Rat.divInt 7 2) (by decide) (by decide) (by decide) (by decide)

/-- C8: the line `"Iteration 7/20"` sets the job's `current_iteration`
to 7 and leaves `best_reward` exactly as the merge base had it. -/
theorem iteration_line_sets_current_iteration (p : Option Progress) :
    (parseAndMergeLine "Iteration 7/20" p).map (fun q => q.current_iteration) = some (some 7)
  ∧ (parseAndMergeLine "Iteration 7/20" p).map (fun q => q.best_reward)
      = some ((p.getD emptyProgress).best_reward) := by
  cases p <;> exact ⟨rfl, rfl⟩

/-- C8 witness: the concrete evaluation at a job with prior progress. -/
theorem iteration_line_sets_current_iteration_witness :
    (parseAndMergeLine "Iteration 7/20" (some progSample)).map (fun q => q.current_iteration)
      = some (some 7)
  ∧ (parseAndMergeLine "Iteration 7/20" (some progSample)).map (fun q => q.best_reward)
      = some (((some progSample).getD emptyProgress).best_reward) :=
  iteration_line_sets_current_iteration (some progSample)

/-- C10: a line containing the `Best reward:` marker can change at most
`best_reward`; whatever the merge produced, every other progress field
equals the merge base's field (the `elif` chain makes the three pattern
checks mutually exclusive, with the reward check first). -/
theorem reward_line_frame_effect (line_str : String) (p : Option Progress) (p' : Progress)
    (h : hasSubstr line_str "Best reward:" = true)
    (hp : parseAndMergeLine line_str p = some p') :
    p'.current_iteration = (p.getD emptyProgress).current_iteration
  ∧ p'.collision_found = (p.getD emptyProgress).collision_found
  ∧ p'.total_iterations = (p.getD emptyProgress).total_iterations
  ∧ p'.elapsed_time = (p.getD emptyProgress).elapsed_time
  ∧ p'.estimated_remaining = (p.getD emptyProgress).estimated_remaining
  ∧ p'.recent_rewards = (p.getD emptyProgress).recent_rewards := by
  rcases reward_line_delta_shape line_str h with herr | ⟨r, hdelta⟩
  · rw [parseAndMerge_of_err _ _ herr] at hp
    rw [hp]
    simp
  · rw [parseAndMerge_of_delta _ _ _ hdelta, applyDelta_reward_shape] at hp
    simp only [Option.some.injEq] at hp
    subst hp
    simp

/-- C10 witness: on `"Best reward: 2.5 quality"` over a job with prior
progress, all fields except `best_reward` are untouched. -/
theorem reward_line_frame_effect_witness :
    ({ progSample with best_reward := some (some (Rat.divInt 5 2)) } : Progress).current_iteration
      = ((some progSample).getD emptyProgress).current_iteration
  ∧ ({ progSample with best_reward := some (some (Rat.divInt 5 2)) } : Progress).collision_found
      = ((some progSample).getD emptyProgress).collision_found
  ∧ ({ progSample with best_reward := some (some (Rat.divInt 5 2)) } : Progress).total_iterations
      = ((some progSample).getD emptyProgress).total_iterations
  ∧ ({ progSample with best_reward := some (some (Rat.divInt 5 2)) } : Progress).elapsed_time
      = ((some progSample).getD emptyProgress).elapsed_time
  ∧ ({ progSample with best_reward := some (some (Rat.divInt 5 2)) } : Progress).estimated_remaining
      = ((some progSample).getD emptyProgress).estimated_remaining
  ∧ ({ progSample with best_reward := some (some (Rat.divInt 5 2)) } : Progress).recent_rewards
      = ((some progSample).getD emptyProgress).recent_rewards :=
  reward_line_frame_effect "Best reward: 2.5 quality" (some progSample)
    { progSample with best_reward := some (some (Rat.divInt 5 2)) } (by decide) (by decide)

/-! ## Claims about the lifecycle state machine and the facade -/

/-- C3 counterexample: the completed job `e1` has no active task, so
`start_experiment` accepts it and moves its status back to `running`,
and re-entering `completed` produces a dict different from the old one
(the `completed_at` stamp moves): terminal states are not absorbing and
re-entry is not a no-op. -/
theorem terminal_not_absorbing_counterexample :
    dTerm.status = ExpStatus.completed
  ∧ (start_experiment 10 stTerm "e1").map
      (fun s2 => (lookupExp s2 "e1").map (fun d2 => d2.status))
      = Except.ok (some ExpStatus.running)
  ∧ updateStatusFields 20 ExpStatus.completed UpdateKw.noKw dTerm ≠ dTerm := by
  refine ⟨rfl, rfl, by decide⟩

/-- C3 (amended): for a job in a terminal state with no active task,
`stop` fails with the not-running `ValueError` and changes nothing,
re-entering the same terminal state keeps the status value and every
other field but restamps `completed_at` to the current instant, and
`start` succeeds and transitions the job back to `running` — terminal
states are not absorbing. -/
theorem terminal_state_semantics (now : Nat) (tr : Bool) (s : ServiceState) (id : String)
    (d : StatusDict) (hd : lookupExp s id = some d) (hterm : d.status.isTerminal = true)
    (hact : s.active_experiments.contains id = false) :
    stop_experiment now tr s id
      = Except.error (PyErr.valueError ("Experiment " ++ id ++ " is not running"))
  ∧ (updateStatusFields now d.status UpdateKw.noKw d).status = d.status
  ∧ (updateStatusFields now d.status UpdateKw.noKw d).completed_at = some now
  ∧ (updateStatusFields now d.status UpdateKw.noKw d).started_at = d.started_at
  ∧ (updateStatusFields now d.status UpdateKw.noKw d).progress = d.progress
  ∧ (updateStatusFields now d.status UpdateKw.noKw d).error_message = d.error_message
  ∧ (start_experiment now s id).map
      (fun s2 => (lookupExp s2 id).map (fun d2 => d2.status))
      = Except.ok (some ExpStatus.running) := by
  have hne : ¬ d.status = ExpStatus.running := by
    intro hcontra
    rw [hcontra] at hterm
    cases hterm
  have hd' : lookupAssoc s.experiment_status id = some d := hd
  have hact2 : id ∉ s.active_experiments := by simpa using hact
  have hnotmem : (!s.active_experiments.contains id) = true := by rw [hact]; rfl
  refine ⟨?_, ?_, ?_, ?_, ?_, ?_, ?_⟩
  · unfold stop_experiment
    rw [if_pos hnotmem]
  · exact updateStatusFields_status now d.status UpdateKw.noKw d
  · simp [updateStatusFields, hne, hterm]
  · simp [updateStatusFields, hne, hterm]
  · simp [updateStatusFields, hne, hterm]
  · simp [updateStatusFields, hne, hterm]
  · simp [start_experiment, _update_experiment_status, hd', hact2, setExp, lookupExp,
      lookupAssoc_setAssoc, updateStatusFields_status, Except.map]

/-- C3 witness: the amended behavior evaluated on the completed job
`e1`. -/
theorem terminal_state_semantics_witness :
    stop_experiment 10 true stTerm "e1"
      = Except.error (PyErr.valueError ("Experiment " ++ "e1" ++ " is not running"))
  ∧ (updateStatusFields 10 dTerm.status UpdateKw.noKw dTerm).status = dTerm.status
  ∧ (updateStatusFields 10 dTerm.status UpdateKw.noKw dTerm).completed_at = some 10
  ∧ (updateStatusFields 10 dTerm.status UpdateKw.noKw dTerm).started_at = dTerm.started_at
  ∧ (updateStatusFields 10 dTerm.status UpdateKw.noKw dTerm).progress = dTerm.progress
  ∧ (updateStatusFields 10 dTerm.status UpdateKw.noKw dTerm).error_message = dTerm.error_message
  ∧ (start_experiment 10 stTerm "e1").map
      (fun s2 => (lookupExp s2 "e1").map (fun d2 => d2.status))
      = Except.ok (some ExpStatus.running) :=
  terminal_state_semantics 10 true stTerm "e1" dTerm rfl rfl rfl

/-- C4 counterexample: in the in-memory registry the stopped job `e4`
already has `started_at = 3`, yet starting it again restamps
`started_at` to the new instant 10; likewise the completed job `e1`
already has `completed_at = 5`, yet a repeated `completed` update
restamps it to 20. -/
theorem timestamps_restamped_counterexample :
    dStopped.started_at = some 3
  ∧ (start_experiment 10 stStopped "e4").map
      (fun s2 => (lookupExp s2 "e4").map (fun d2 => d2.started_at))
      = Except.ok (some (some 10))
  ∧ dTerm.completed_at = some 5
  ∧ (updateStatusFields 20 ExpStatus.completed UpdateKw.noKw dTerm).completed_at = some 20 :=
  ⟨rfl, rfl, rfl, rfl⟩

theorem dbApplyKwargs_timestamps (kw : DbKw) (r : DbRecord) :
    (dbApplyKwargs kw r).started_at = r.started_at
  ∧ (dbApplyKwargs kw r).completed_at = r.completed_at := by
  obtain ⟨br, cf, em⟩ := kw
  unfold dbApplyKwargs
  cases br <;> cases cf <;> cases em <;> exact ⟨rfl, rfl⟩

/-- C4 (amended): in the durable store, `update_experiment_status`
stamps `started_at` exactly on the first transition into `running` and
`completed_at` exactly on the first transition into a terminal status,
and never changes either once set — duplicate transition attempts leave
them unchanged.  (The in-memory registry restamps both, see the
counterexample.) -/
theorem db_timestamps_set_once (now : Nat) (status : String) (kw : DbKw) (r : DbRecord) :
    ((r.started_at = none ∧ status = "running") →
      (update_experiment_status now status kw r).started_at = some now)
  ∧ (∀ t, r.started_at = some t →
      (update_experiment_status now status kw r).started_at = some t)
  ∧ ((r.completed_at = none ∧ (status = "completed" ∨ status = "failed" ∨ status = "stopped")) →
      (update_experiment_status now status kw r).completed_at = some now)
  ∧ (∀ t, r.completed_at = some t →
      (update_experiment_status now status kw r).completed_at = some t) := by
  have hrun : ¬ ("running" = "completed" ∨ "running" = "failed" ∨ "running" = "stopped") := by
    decide
  refine ⟨?_, ?_, ?_, ?_⟩
  · rintro ⟨h1, h2⟩
    unfold update_experiment_status
    rw [(dbApplyKwargs_timestamps kw _).1]
    split_ifs with ha hb
    · rfl
    · exact absurd ⟨h2, h1⟩ ha
    · exact absurd ⟨h2, h1⟩ ha
  · intro t ht
    unfold update_experiment_status
    rw [(dbApplyKwargs_timestamps kw _).1]
    split_ifs with ha hb
    · rw [ht] at ha
      cases ha.2
    · exact ht
    · exact ht
  · rintro ⟨h1, h2⟩
    unfold update_experiment_status
    rw [(dbApplyKwargs_timestamps kw _).2]
    split_ifs with ha hb
    · rcases h2 with h2 | h2 | h2 <;> rw [h2] at ha <;> exact absurd ha.1 (by decide)
    · rfl
    · exact absurd ⟨h2, h1⟩ hb
  · intro t ht
    unfold update_experiment_status
    rw [(dbApplyKwargs_timestamps kw _).2]
    split_ifs with ha hb
    · exact ht
    · rw [ht] at hb
      cases hb.2
    · exact ht

/-- C4 witness: a record with `started_at = 3` keeps it under a new
`running` update, and a fresh record entering `completed` at instant 10
gets `completed_at = 10`. -/
theorem db_timestamps_set_once_witness :
    (update_experiment_status 10 "running"
      { best_reward := none, collision_found := none, error_message := none }
      { id := "e", status := "running", started_at := some 3, completed_at := none,
        best_reward := none, total_iterations := 0, collision_found := false,
        error_message := none }).started_at = some 3
  ∧ (update_experiment_status 10 "completed"
      { best_reward := none, collision_found := none, error_message := none }
      { id := "e", status := "running", started_at := some 3, completed_at := none,
        best_reward := none, total_iterations := 0, collision_found := false,
        error_message := none }).completed_at = some 10 :=
  ⟨(db_timestamps_set_once 10 "running"
      { best_reward := none, collision_found := none, error_message := none }
      { id := "e", status := "running", started_at := some 3, completed_at := none,
        best_reward := none, total_iterations := 0, collision_found := false,
        error_message := none }).2.1 3 rfl,
   (db_timestamps_set_once 10 "completed"
      { best_reward := none, collision_found := none, error_message := none }
      { id := "e", status := "running", started_at := some 3, completed_at := none,
        best_reward := none, total_iterations := 0, collision_found := false,
        error_message := none }).2.2.1 ⟨rfl, Or.inl rfl⟩⟩

/-- C5: `start` behaves as claimed on the concrete states (not-found,
already-running, and the evaluations below), but `stop` does not fail
exactly on a missing active task: on the running job `e5`, whose task
has begun running, `stop` raises `KeyError` because the cancelled task's
`finally` block already removed the active entry before the unguarded
`del` of line 201 runs; only a task that never started (`taskHadRun =
false`) can be stopped cleanly. -/
theorem stop_raises_keyerror_despite_active_task :
    stRunning.active_experiments.contains "e5" = true
  ∧ stop_experiment 10 true stRunning "e5" = Except.error (PyErr.keyError "e5")
  ∧ (stop_experiment 10 false stRunning "e5").map
      (fun s2 => (lookupExp s2 "e5").map (fun d2 => d2.status))
      = Except.ok (some ExpStatus.stopped)
  ∧ start_experiment 10 stRunning "e5"
      = Except.error (PyErr.valueError ("Experiment " ++ "e5" ++ " is already running"))
  ∧ start_experiment 10 stEmptySvc "missing"
      = Except.error (PyErr.valueError ("Experiment " ++ "missing" ++ " not found"))
  ∧ stop_experiment 10 true stEmptySvc "missing"
      = Except.error (PyErr.valueError ("Experiment " ++ "missing" ++ " is not running")) :=
  ⟨rfl, rfl, rfl, rfl, rfl, rfl⟩

/-! ## Claims about result and file access -/

/-- C6: for a known job, a filename whose resolved join escapes the
job's output directory yields nothing, whatever the filesystem holds at
the escaped location; and any returned path exists and lies within the
output directory. -/
theorem file_path_traversal_guard (fs : FsModel) (s : ServiceState) (id filename : String) :
    (∀ d, lookupExp s id = some d →
      isAncestor (resolvePath (pyPathParts (d.output_directory.getD "")))
        (resolvePath (pathJoin (pyPathParts (d.output_directory.getD "")) filename)) = false →
      get_experiment_file_path fs s id filename = none)
  ∧ (∀ p, get_experiment_file_path fs s id filename = some p →
      pathExistsIn fs p = true
      ∧ ∀ d, lookupExp s id = some d →
          isAncestor (resolvePath (pyPathParts (d.output_directory.getD "")))
            (resolvePath p) = true) := by
  constructor
  · intro d hd hesc
    unfold get_experiment_file_path
    rw [hd]
    simp [filePathWithin, hesc]
  · intro p hp
    cases hl : lookupExp s id with
    | none =>
      unfold get_experiment_file_path at hp
      rw [hl] at hp
      cases hp
    | some d =>
      unfold get_experiment_file_path at hp
      rw [hl] at hp
      simp only [filePathWithin] at hp
      split at hp
      · split at hp
        · cases hp
          constructor
          · assumption
          · intro d2 hd2
            have hdd : d = d2 := Option.some.inj hd2
            subst hdd
            assumption
        · cases hp
      · cases hp

/-- C6 witness: `../secret` escapes `/out/e6` and yields nothing even
though `/out/secret` exists; `log.txt` inside the directory exists and
is returned; a missing inside file yields nothing. -/
theorem file_path_traversal_guard_witness :
    get_experiment_file_path fsFile stFile "e6" "../secret" = none
  ∧ pathExistsIn fsFile (pyPathParts "/out/secret") = true
  ∧ get_experiment_file_path fsFile stFile "e6" "log.txt" = some ["out", "e6", "log.txt"]
  ∧ get_experiment_file_path fsFile stFile "e6" "missing.txt" = none := by
  refine ⟨(file_path_traversal_guard fsFile stFile "e6" "../secret").1 dOut6 rfl (by decide),
    by decide, by decide, by decide⟩

theorem mem_insertStr (a x : String) (l : List String) :
    a ∈ insertStr x l ↔ a = x ∨ a ∈ l := by
  induction l with
  | nil => simp [insertStr]
  | cons y ys ih =>
    by_cases hxy : x ≤ y
    · simp [insertStr, hxy]
    · simp [insertStr, hxy, ih]
      tauto

theorem mem_pySort (a : String) (l : List String) : a ∈ pySort l ↔ a ∈ l := by
  induction l with
  | nil => simp [pySort]
  | cons x xs ih => simp [pySort, mem_insertStr, ih]

/-- C9 counterexample: a known job whose output directory lacks
`best_solution.json` but holds the generated `experiment_config.json`
yields a result whose numeric fields are the claimed zeros/absences but
whose file list is not empty. -/
theorem results_file_list_not_empty_counterexample :
    (get_experiment_results fsRes stRes "e9").map
      (fun r => (r.total_iterations, r.best_reward, r.collision_found, r.result_files))
      = some (0, none, false, ["experiment_config.json"]) := rfl

/-- C9 (amended): results for an unknown id are nothing; for a known job
whose output directory holds no `best_solution.json`, the call does not
fail and returns a result with `total_iterations = 0`, absent
`best_reward`, `collision_found = false`, and a file list holding
exactly the files present in the output directory (so empty when the
directory is empty or missing). -/
theorem results_absent_artifact (fs : FsModel) (s : ServiceState) (id : String) :
    (lookupExp s id = none → get_experiment_results fs s id = none)
  ∧ ∀ d, lookupExp s id = some d →
      pathExistsIn fs (pyPathParts (d.output_directory.getD "") ++ ["best_solution.json"])
        = false →
      ∃ r, get_experiment_results fs s id = some r
        ∧ r.total_iterations = 0
        ∧ r.best_reward = none
        ∧ r.collision_found = false
        ∧ r.best_parameters = none
        ∧ ∀ f, f ∈ r.result_files ↔
            (pathExistsIn fs (pyPathParts (d.output_directory.getD "")) = true
              ∧ f ∈ fs.dirFiles (pyPathParts (d.output_directory.getD ""))) := by
  constructor
  · intro h
    unfold get_experiment_results
    rw [h]
  · intro d hd habs
    refine ⟨resultsForDict fs id d, ?_, ?_, ?_, ?_, ?_, ?_⟩
    · unfold get_experiment_results
      rw [hd]
    · simp [resultsForDict, habs, emptyBestSolution]
    · simp [resultsForDict, habs, emptyBestSolution]
    · simp [resultsForDict, habs, emptyBestSolution]
    · simp [resultsForDict, habs, emptyBestSolution]
    · intro f
      by_cases hdir : pathExistsIn fs (pyPathParts (d.output_directory.getD "")) = true
      · simp [resultsForDict, _list_result_files, hdir, mem_pySort]
      · simp only [Bool.not_eq_true] at hdir
        simp [resultsForDict, _list_result_files, hdir]

/-- C9 witness: on the job `e9` whose directory exists and is empty, the
result has the zero/empty fields, including an empty file list. -/
theorem results_absent_artifact_witness :
    (get_experiment_results fsResEmpty stRes "e9").map
      (fun r => (r.total_iterations, r.best_reward, r.collision_found, r.result_files))
      = some (0, none, false, []) := by
  obtain ⟨r, hr, h1, h2, h3, h4, h5⟩ :=
    (results_absent_artifact fsResEmpty stRes "e9").2 dOut9 rfl (by decide)
  have hfiles : r.result_files = [] := by
    refine List.eq_nil_iff_forall_not_mem.mpr (fun f hf => ?_)
    have hmem := (h5 f).mp hf
    exact absurd hmem.2 (by simp [fsResEmpty])
  rw [hr]
  simp [h1, h2, h3, hfiles]
